import Mathlib

/-!
Shallow embedding of the capture scheduling / correlation / dispatch engine
of `src/eve_overview_pro/ui/main_tab.py` (classes `WindowPreviewWidget` and
`WindowManager`).  Python dicts are modelled as association lists with the
replace-in-place insertion of a Python dict assignment; Qt timers are
modelled as explicit state plus step functions applied once per timer
period; external collaborators (capture backend, alert detector) are
modelled as function parameters and an explicit result queue.
-/

/-- Alert severity levels used by the alert detector
(`eve_overview_pro.core.alert_detector.AlertLevel`); `main_tab.py` branches
on HIGH and MEDIUM and treats any other level as the low case. -/
inductive AlertLevel where
  | low
  | medium
  | high
deriving DecidableEq, Repr

/-- Opaque captured-image payload (a PIL image in the source); its content
is never inspected by the engine, only passed through. -/
structure Frame where
  val : Nat
deriving DecidableEq, Repr

/-- Lookup in a Python dict modelled as an association list: value of the
first entry with the given key. -/
def dictLookup (k : String) : List (String × α) → Option α
  | [] => none
  | (k', v) :: rest => if k' = k then some v else dictLookup k rest

/-- Membership test `k in d` on a Python dict. -/
def containsKey (k : String) (d : List (String × α)) : Bool :=
  (dictLookup k d).isSome

/-- Python dict assignment `d[k] = v`: replaces the value in place when the
key is present, appends a new entry otherwise. -/
def dictInsert (k : String) (v : α) : List (String × α) → List (String × α)
  | [] => [(k, v)]
  | (k', v') :: rest =>
      if k' = k then (k, v) :: rest else (k', v') :: dictInsert k v rest

/-- Python `d.pop(k, None)` restricted to the dict's shape change: removes
the entry with the given key (a Python dict holds at most one). -/
def dictRemove (k : String) (d : List (String × α)) : List (String × α) :=
  d.filter (fun p => p.1 ≠ k)

/-- In-place mutation of the object stored under a key
(`d[k].method(...)` in the source): applies `f` to the stored value. -/
def dictModify (k : String) (f : α → α) : List (String × α) → List (String × α)
  | [] => []
  | (k', v) :: rest =>
      if k' = k then (k', f v) :: rest else (k', v) :: dictModify k f rest

/-- State of one `WindowPreviewWidget` relevant to the engine: identity,
last delivered frame (`current_pixmap`), alert flash state, capture scale
(`zoom_factor`, 0.3 by default) and Qt visibility. -/
structure WindowPreviewWidget where
  window_id : String
  character_name : String
  current_pixmap : Option Frame
  alert_level : Option AlertLevel
  alert_flash_counter : Int
  flash_timer_active : Bool
  zoom_factor : ℚ
  visible : Bool
deriving DecidableEq, Repr

/-- Widget construction (`WindowPreviewWidget.__init__`): no pixmap yet,
no alert, flash counter 0, flash timer stopped, 30 % zoom; the widget is
created to be shown in the preview layout, so it is modelled visible. -/
def initWidget (window_id character_name : String) : WindowPreviewWidget :=
  { window_id := window_id
    character_name := character_name
    current_pixmap := none
    alert_level := none
    alert_flash_counter := 0
    flash_timer_active := false
    zoom_factor := 3 / 10
    visible := true }

/-- `WindowPreviewWidget.set_alert`: stores the new level unconditionally,
resets the flash counter to 30 (3 seconds at the 10 Hz / 100 ms flash
timer) and ensures the flash timer is running. -/
def set_alert (level : AlertLevel) (w : WindowPreviewWidget) : WindowPreviewWidget :=
  { w with
    alert_level := some level
    alert_flash_counter := 30
    flash_timer_active := true }

/-- `WindowPreviewWidget._flash_tick`: decrements the counter; once it is
not positive the flash timer stops and the alert level resets to None.
The method ends in `self.update()`, a repaint request only — it invokes
no consumer-facing callback. -/
def flash_tick (w : WindowPreviewWidget) : WindowPreviewWidget :=
  let c := w.alert_flash_counter - 1
  if c ≤ 0 then
    { w with alert_flash_counter := c, flash_timer_active := false, alert_level := none }
  else
    { w with alert_flash_counter := c }

/-- One 100 ms step of simulated time for a widget: the flash timer fires
exactly when it is active. -/
def stepFlash (w : WindowPreviewWidget) : WindowPreviewWidget :=
  if w.flash_timer_active then flash_tick w else w

/-- Apply `n` 100 ms steps of simulated time to a widget. -/
def applyTicks : Nat → WindowPreviewWidget → WindowPreviewWidget
  | 0, w => w
  | n + 1, w => applyTicks n (stepFlash w)

/-- `WindowPreviewWidget.update_frame`: converts and stores the image as
the current pixmap.  Called with no image (a failed capture), the PIL
conversion raises, the exception is caught inside `update_frame` and
logged, and the pixmap is left unchanged. -/
def update_frame (img : Option Frame) (w : WindowPreviewWidget) : WindowPreviewWidget :=
  match img with
  | some i => { w with current_pixmap := some i }
  | none => w

/-- Observable external effects of the engine: frame-consumer invocations,
alert-callback invocations (the severity is `some level` for a trigger;
`none` would be a NONE-severity invocation, which lets absence of such an
invocation be stated), capture submissions, and logged submission errors. -/
inductive Event where
  | frameDelivered (window_id : String) (image : Option Frame)
  | alertTriggered (window_id : String) (severity : Option AlertLevel)
  | submitCall (window_id : String) (scale : ℚ)
  | submitErrorLogged (window_id : String)
deriving DecidableEq, Repr

/-- State of the `WindowManager`: the registry of preview widgets keyed by
window id, the pending-request map (request id → window id), the alert
detector's callback subscription table (modelled as the list of window ids
a callback is registered for, in registration order), the refresh rate
(30 FPS initially) and the capture timer's interval when running. -/
structure WindowManager where
  preview_frames : List (String × WindowPreviewWidget)
  pending_requests : List (String × String)
  alert_subscriptions : List String
  refresh_rate : Int
  timer_interval : Option Int
deriving DecidableEq, Repr

/-- `WindowManager.__init__`: empty registry and pending map, refresh rate
30 FPS, capture timer not yet started. -/
def initWM : WindowManager :=
  { preview_frames := []
    pending_requests := []
    alert_subscriptions := []
    refresh_rate := 30
    timer_interval := none }

/-- `max(1, min(60, fps))`, the clamp applied by `set_refresh_rate`. -/
def clampFps (fps : Int) : Int := max 1 (min 60 fps)

/-- `WindowManager.start_capture_loop`: starts the capture timer with
interval `1000 // refresh_rate` milliseconds (Python floor division). -/
def start_capture_loop (wm : WindowManager) : WindowManager :=
  { wm with timer_interval := some (1000 / wm.refresh_rate) }

/-- `WindowManager.stop_capture_loop`: stops the capture timer. -/
def stop_capture_loop (wm : WindowManager) : WindowManager :=
  { wm with timer_interval := none }

/-- `WindowManager.set_refresh_rate`: clamps the requested FPS to [1, 60]
and, when the timer is running, stops and restarts it so the new interval
takes effect. -/
def set_refresh_rate (wm : WindowManager) (fps : Int) : WindowManager :=
  let wm := { wm with refresh_rate := clampFps fps }
  match wm.timer_interval with
  | some _ => start_capture_loop (stop_capture_loop wm)
  | none => wm

/-- Interval the specification prescribes: `round(1000 / rate_hz)` with
the rate clamped to [1, 60].  Written from the spec's words, to be
compared with the source's floor division. -/
def specRoundInterval (rate_hz : Int) : Int :=
  round ((1000 : ℚ) / (clampFps rate_hz : ℚ))

/-- `WindowManager.add_window`: rejected (None, no mutation) when the id
is already in the registry; otherwise creates a widget, stores it, and
registers an alert callback for the id with the alert detector. -/
def add_window (wm : WindowManager) (window_id character_name : String) :
    WindowManager × Option WindowPreviewWidget :=
  if containsKey window_id wm.preview_frames then
    (wm, none)
  else
    let frame := initWidget window_id character_name
    ({ wm with
        preview_frames := dictInsert window_id frame wm.preview_frames
        alert_subscriptions := wm.alert_subscriptions ++ [window_id] },
      some frame)

/-- `WindowManager.remove_window`: no-op when the id is absent; otherwise
unregisters the alert callback and removes the widget from the registry.
Pending requests referencing the id are left untouched. -/
def remove_window (wm : WindowManager) (window_id : String) : WindowManager :=
  if containsKey window_id wm.preview_frames then
    { wm with
      preview_frames := dictRemove window_id wm.preview_frames
      alert_subscriptions := wm.alert_subscriptions.filter (fun i => i ≠ window_id) }
  else
    wm

/-- `WindowManager.get_active_window_count`: size of the registry. -/
def get_active_window_count (wm : WindowManager) : Nat :=
  wm.preview_frames.length

/-- The alert callback closure registered by `add_window`: delivers the
level to the widget's `set_alert` only when the window id is still in the
registry at delivery time; otherwise it does nothing. -/
def alert_callback (wm : WindowManager) (window_id : String) (level : AlertLevel) :
    WindowManager :=
  if containsKey window_id wm.preview_frames then
    { wm with preview_frames := dictModify window_id (set_alert level) wm.preview_frames }
  else
    wm

/-- The single statement `self.pending_requests[request_id] = window_id`
in `_capture_cycle`, the engine's record operation for a pending request;
it performs a dict assignment and emits no log entry. -/
def record (pending : List (String × String)) (request_id window_id : String) :
    List (String × String) × List Event :=
  (dictInsert request_id window_id pending, [])

/-- One completed capture result as produced by
`capture_system.get_result`: `(request_id, window_id, image)`. -/
structure PollResult where
  request_id : String
  window_id : String
  image : Option Frame
deriving DecidableEq, Repr

/-- Body of one iteration of the drain loop in
`_process_capture_results` for a polled result: when the window id is in
the registry, `update_frame` is invoked (the frame-consumer delivery);
when the image is present the alert detector analyzes it and a returned
level is applied through `set_alert`; in every case the request id is
popped from the pending map.  A result whose window id is not registered
produces no invocation at all. -/
def processOne (analyze : String → Frame → Option AlertLevel)
    (wm : WindowManager) (r : PollResult) : WindowManager × List Event :=
  if containsKey r.window_id wm.preview_frames then
    match r.image with
    | some img =>
        match analyze r.window_id img with
        | some lvl =>
            ({ wm with
                preview_frames :=
                  dictModify r.window_id (set_alert lvl)
                    (dictModify r.window_id (update_frame r.image) wm.preview_frames)
                pending_requests := dictRemove r.request_id wm.pending_requests },
              [Event.frameDelivered r.window_id r.image,
                Event.alertTriggered r.window_id (some lvl)])
        | none =>
            ({ wm with
                preview_frames :=
                  dictModify r.window_id (update_frame r.image) wm.preview_frames
                pending_requests := dictRemove r.request_id wm.pending_requests },
              [Event.frameDelivered r.window_id r.image])
    | none =>
        ({ wm with
            preview_frames :=
              dictModify r.window_id (update_frame r.image) wm.preview_frames
            pending_requests := dictRemove r.request_id wm.pending_requests },
          [Event.frameDelivered r.window_id r.image])
  else
    ({ wm with pending_requests := dictRemove r.request_id wm.pending_requests }, [])

/-- `WindowManager._process_capture_results`: drains the backend's result
queue with repeated non-blocking `get_result` calls until one returns no
result.  The queue lists the results the backend will hand out in order;
the returned number counts the `get_result` calls made (one per drained
result plus the final empty one). -/
def processResults (analyze : String → Frame → Option AlertLevel)
    (wm : WindowManager) : List PollResult → WindowManager × List Event × Nat
  | [] => (wm, [], 1)
  | r :: rest =>
      ((processResults analyze (processOne analyze wm r).1 rest).1,
        (processOne analyze wm r).2 ++
          (processResults analyze (processOne analyze wm r).1 rest).2.1,
        (processResults analyze (processOne analyze wm r).1 rest).2.2 + 1)

/-- Submission half of `WindowManager._capture_cycle`: iterates the
registry in order and, for each visible widget, calls
`capture_system.capture_window_async(window_id, scale=zoom_factor)`
(the `submitCall` event).  On success the returned request id is recorded
in the pending map; a raised submission error is caught and logged and the
pending map is unchanged. -/
def submitPhase (submitFn : String → ℚ → Option String) :
    List (String × WindowPreviewWidget) → List (String × String) →
    List (String × String) × List Event
  | [], pending => (pending, [])
  | (wid, f) :: rest, pending =>
      if f.visible then
        match submitFn wid f.zoom_factor with
        | some rid =>
            ((submitPhase submitFn rest (dictInsert rid wid pending)).1,
              Event.submitCall wid f.zoom_factor ::
                (submitPhase submitFn rest (dictInsert rid wid pending)).2)
        | none =>
            ((submitPhase submitFn rest pending).1,
              Event.submitCall wid f.zoom_factor :: Event.submitErrorLogged wid ::
                (submitPhase submitFn rest pending).2)
      else
        submitPhase submitFn rest pending

/-- `WindowManager._capture_cycle`: one timer tick — submit captures for
all visible widgets, then drain all available results. -/
def capture_cycle (submitFn : String → ℚ → Option String)
    (analyze : String → Frame → Option AlertLevel)
    (wm : WindowManager) (queue : List PollResult) :
    WindowManager × List Event × Nat :=
  ((processResults analyze
      { wm with
        pending_requests :=
          (submitPhase submitFn wm.preview_frames wm.pending_requests).1 } queue).1,
    (submitPhase submitFn wm.preview_frames wm.pending_requests).2 ++
      (processResults analyze
        { wm with
          pending_requests :=
            (submitPhase submitFn wm.preview_frames wm.pending_requests).1 } queue).2.1,
    (processResults analyze
      { wm with
        pending_requests :=
          (submitPhase submitFn wm.preview_frames wm.pending_requests).1 } queue).2.2)

/-- Submit-call events among a list of events. -/
def submitCallsOf (evs : List Event) : List Event :=
  evs.filter fun e =>
    match e with
    | Event.submitCall _ _ => true
    | _ => false

/-- `_flash_tick` together with the consumer-facing invocations it makes:
the method only decrements the counter, possibly stops the timer and
clears the level, and requests a repaint — it makes none, so its event
list is always empty. -/
def flash_tick_ev (w : WindowPreviewWidget) : WindowPreviewWidget × List Event :=
  (flash_tick w, [])

/-- One 100 ms step of simulated time for a widget, with the
consumer-facing invocations made during that step. -/
def stepFlashEv (w : WindowPreviewWidget) : WindowPreviewWidget × List Event :=
  if w.flash_timer_active then flash_tick_ev w else (w, [])

/-- Apply `n` 100 ms steps of simulated time, accumulating the
consumer-facing invocations made along the way. -/
def applyTicksEv : Nat → WindowPreviewWidget → WindowPreviewWidget × List Event
  | 0, w => (w, [])
  | n + 1, w =>
      ((applyTicksEv n (stepFlashEv w).1).1,
        (stepFlashEv w).2 ++ (applyTicksEv n (stepFlashEv w).1).2)

/-- Alert-timing scenario, step 1: `trigger(HIGH)` at t = 0 on a fresh
widget (the widget's alert callback delivering HIGH to `set_alert`). -/
def c3w0 : WindowPreviewWidget := set_alert AlertLevel.high (initWidget "w1" "Pilot One")

/-- Alert-timing scenario, step 2: fifteen 100 ms flash ticks
(t = 100 … 1500 ms) and then `trigger(MEDIUM)` at t = 1500 ms. -/
def c3wA : WindowPreviewWidget := set_alert AlertLevel.medium (applyTicks 15 c3w0)

/-- Manager with the single target `"w1"` registered. -/
def wmW1 : WindowManager := (add_window initWM "w1" "Pilot One").1

/-- Alert detector stub whose `analyze_frame` always reports HIGH. -/
def analyzeHigh : String → Frame → Option AlertLevel := fun _ _ => some AlertLevel.high

/-- A completed capture result for `"w1"` carrying a frame. -/
def resW1 : PollResult := { request_id := "r1", window_id := "w1", image := some ⟨7⟩ }

/-- State of the `"w1"` widget after one tick's drain delivered `resW1`
and its HIGH analysis (ACTIVE, flash timer running). -/
def c4Widget : WindowPreviewWidget :=
  (dictLookup "w1" (processResults analyzeHigh wmW1 [resW1]).1.preview_frames).getD
    (initWidget "w1" "Pilot One")

/-- Manager with `"w1"` registered and one in-flight request `"r1"`. -/
def wmInFlight : WindowManager := { wmW1 with pending_requests := [("r1", "w1")] }

/-- Backend stub whose submission always succeeds, returning a request id
derived from the window id. -/
def submitOk : String → ℚ → Option String := fun wid _ => some ("rq-" ++ wid)

/-- Registry holding a visible `"w1"` and a hidden `"w2"`. -/
def framesOneVisible : List (String × WindowPreviewWidget) :=
  [("w1", initWidget "w1" "Pilot One"),
    ("w2", { initWidget "w2" "Pilot Two" with visible := false })]

/-- Inserting under a key makes the key present. -/
theorem containsKey_dictInsert_self (k : String) (v : α) (d : List (String × α)) :
    containsKey k (dictInsert k v d) = true := by
  induction d with
  | nil => simp [dictInsert, containsKey, dictLookup]
  | cons p rest ih =>
      by_cases h : p.1 = k
      · simp [dictInsert, h, containsKey, dictLookup]
      · simpa [dictInsert, h, containsKey, dictLookup] using ih

/-- Lookup after inserting under the same key returns the new value. -/
theorem dictLookup_dictInsert_self (k : String) (v : α) (d : List (String × α)) :
    dictLookup k (dictInsert k v d) = some v := by
  induction d with
  | nil => simp [dictInsert, dictLookup]
  | cons p rest ih =>
      by_cases h : p.1 = k
      · simp [dictInsert, h, dictLookup]
      · simpa [dictInsert, h, dictLookup] using ih

/-- Inserting under an already-present key replaces in place and keeps the
dict's size. -/
theorem length_dictInsert_of_lookup (k : String) (v v0 : α) (d : List (String × α))
    (h : dictLookup k d = some v0) : (dictInsert k v d).length = d.length := by
  induction d with
  | nil => simp [dictLookup] at h
  | cons p rest ih =>
      by_cases hp : p.1 = k
      · simp [dictInsert, hp]
      · simp [dictLookup, hp] at h
        simpa [dictInsert, hp] using ih h

/-- Removing a key makes it absent. -/
theorem containsKey_dictRemove_self (k : String) (d : List (String × α)) :
    containsKey k (dictRemove k d) = false := by
  induction d with
  | nil => simp [dictRemove, containsKey, dictLookup]
  | cons p rest ih =>
      by_cases h : p.1 = k
      · simpa [dictRemove, h] using ih
      · simpa [dictRemove, h, containsKey, dictLookup] using ih

/-- After `remove_window`, the removed id is not in the registry. -/
theorem not_containsKey_remove_window (wm : WindowManager) (wid : String) :
    containsKey wid (remove_window wm wid).preview_frames = false := by
  by_cases h : containsKey wid wm.preview_frames
  · simp [remove_window, h, containsKey_dictRemove_self]
  · simp only [Bool.not_eq_true] at h
    simp [remove_window, h]

/-- Division of 1000 by a positive integer agrees with the rational floor:
Python's `1000 // c` is `⌊1000 / c⌋`. -/
theorem div1000_eq_floor (c : Int) (h : 1 ≤ c) :
    (1000 : Int) / c = ⌊(1000 : ℚ) / (c : ℚ)⌋ := by
  have hc : ((c.toNat : ℕ) : ℤ) = c := Int.toNat_of_nonneg (by omega)
  have hq : ((c.toNat : ℕ) : ℚ) = (c : ℚ) := by
    exact_mod_cast congrArg (fun z : ℤ => (z : ℚ)) hc
  have hfl := Rat.floor_intCast_div_natCast 1000 c.toNat
  rw [hq] at hfl
  rw [hc] at hfl
  rw [← hfl]
  norm_num

/-- C1 counterexample: starting the scheduler at rate 60 Hz produces a
16 ms tick interval (`1000 // 60`), while the claimed
`round(1000 / 60) = 17` ms differs. -/
theorem C1_round_interval_counterexample :
    (start_capture_loop (set_refresh_rate initWM 60)).timer_interval = some 16 ∧
      specRoundInterval 60 = 17 ∧ (16 : Int) ≠ 17 := by
  refine ⟨by decide, ?_, by decide⟩
  have h : clampFps 60 = 60 := by decide
  rw [specRoundInterval, h]
  rw [show ((60 : ℤ) : ℚ) = (60 : ℚ) by norm_num]
  rw [round_eq]
  norm_num

/-- C1 (amended): starting the scheduler after setting any rate begins a
periodic tick whose interval is `1000 // rate_hz` milliseconds — the
floor, not the round, of `1000 / rate_hz` — with the rate clamped to
[1, 60] before use, and the clamp is the identity on rates already in
[1, 60]. -/
theorem C1_interval_is_floor (rate : Int) (wm : WindowManager) :
    1 ≤ clampFps rate ∧ clampFps rate ≤ 60 ∧
      (start_capture_loop (set_refresh_rate wm rate)).timer_interval =
        some (1000 / clampFps rate) ∧
      (1000 : Int) / clampFps rate = ⌊(1000 : ℚ) / (clampFps rate : ℚ)⌋ ∧
      (1 ≤ rate → rate ≤ 60 → clampFps rate = rate) := by
  have h1 : 1 ≤ clampFps rate := by unfold clampFps; omega
  have h60 : clampFps rate ≤ 60 := by unfold clampFps; omega
  refine ⟨h1, h60, ?_, div1000_eq_floor _ h1, ?_⟩
  · cases h : wm.timer_interval with
    | none => simp [set_refresh_rate, start_capture_loop, h]
    | some i => simp [set_refresh_rate, start_capture_loop, stop_capture_loop, h]
  · intro ha hb
    unfold clampFps
    omega

/-- C1 witness: at rate 30 the clamp is the identity and the started
interval is 33 ms. -/
theorem C1_interval_is_floor_witness :
    clampFps 30 = 30 ∧
      (start_capture_loop (set_refresh_rate initWM 30)).timer_interval =
        some (1000 / clampFps 30) := by
  refine ⟨(C1_interval_is_floor 30 initWM).2.2.2.2 (by decide) (by decide), ?_⟩
  exact (C1_interval_is_floor 30 initWM).2.2.1

/-- C2: when a target is removed while a capture request for it is in
flight, the later resolution of that request is dropped silently — the
drain step for that result invokes no frame consumer and no alert
callback (its event list is empty), leaves the registry untouched, only
pops the request id from the pending map, and the drain loop continues
with the remaining results exactly as it would have (the model is a total
function, so nothing is raised). -/
theorem C2_orphan_resolution_dropped
    (analyze : String → Frame → Option AlertLevel) (wm : WindowManager)
    (r : PollResult) (rest : List PollResult)
    (hflight : dictLookup r.request_id wm.pending_requests = some r.window_id) :
    (processOne analyze (remove_window wm r.window_id) r).2 = [] ∧
      (processOne analyze (remove_window wm r.window_id) r).1.preview_frames =
        (remove_window wm r.window_id).preview_frames ∧
      (processOne analyze (remove_window wm r.window_id) r).1.pending_requests =
        dictRemove r.request_id (remove_window wm r.window_id).pending_requests ∧
      (processResults analyze (remove_window wm r.window_id) (r :: rest)).2.1 =
        (processResults analyze
          (processOne analyze (remove_window wm r.window_id) r).1 rest).2.1 ∧
      (processResults analyze (remove_window wm r.window_id) (r :: rest)).2.2 =
        (processResults analyze
          (processOne analyze (remove_window wm r.window_id) r).1 rest).2.2 + 1 := by
  have hc := not_containsKey_remove_window wm r.window_id
  refine ⟨?_, ?_, ?_, ?_, ?_⟩ <;> simp [processOne, processResults, hc]

/-- C2 witness: with `"w1"` registered and request `"r1"` in flight,
removing `"w1"` makes the drain drop the `"r1"` resolution with no
invocation and no registry change. -/
theorem C2_orphan_resolution_dropped_witness :
    (processOne analyzeHigh (remove_window wmInFlight "w1") resW1).2 = [] ∧
      (processOne analyzeHigh (remove_window wmInFlight "w1") resW1).1.preview_frames =
        (remove_window wmInFlight "w1").preview_frames := by
  have h := C2_orphan_resolution_dropped analyzeHigh wmInFlight resW1 [] (by decide)
  exact ⟨h.1, h.2.1⟩

/-- C3: a trigger unconditionally replaces the stored severity and resets
the remaining-active window to the full 30 flash ticks (3000 ms at
100 ms per tick), whatever the previous state; in the concrete timeline —
`trigger(HIGH)` at t = 0, fifteen 100 ms ticks, `trigger(MEDIUM)` at
t = 1500 ms — the widget is ACTIVE with severity MEDIUM at t = 1500 ms,
is still ACTIVE with MEDIUM at t = 3000 ms and at t = 4400 ms, and
reaches IDLE (no severity, flash timer stopped) exactly at t = 4500 ms. -/
theorem C3_retrigger_restarts_window :
    (∀ (w : WindowPreviewWidget) (lvl : AlertLevel),
        (set_alert lvl w).alert_level = some lvl ∧
          (set_alert lvl w).alert_flash_counter = 30 ∧
          (set_alert lvl w).flash_timer_active = true) ∧
      c3wA.alert_level = some AlertLevel.medium ∧
      c3wA.flash_timer_active = true ∧
      (applyTicks 15 c3wA).alert_level = some AlertLevel.medium ∧
      (applyTicks 29 c3wA).alert_level = some AlertLevel.medium ∧
      (applyTicks 29 c3wA).flash_timer_active = true ∧
      (applyTicks 30 c3wA).alert_level = none ∧
      (applyTicks 30 c3wA).flash_timer_active = false := by
  refine ⟨fun w lvl => ⟨rfl, rfl, rfl⟩, ?_⟩
  decide

/-- C4 counterexample: in the scenario where HIGH is analyzed for a frame
of the registered target `"w1"` and 3000 ms of simulated time then pass
with no further trigger, the widget does transition from ACTIVE to IDLE,
yet the consumer-facing invocations across the drain and the 30 decay
ticks contain no NONE-severity alert invocation at all — not the exactly
one the claim requires. -/
theorem C4_none_callback_counterexample :
    c4Widget.alert_level = some AlertLevel.high ∧
      (applyTicksEv 30 c4Widget).1.alert_level = none ∧
      ((processResults analyzeHigh wmW1 [resW1]).2.1 ++
          (applyTicksEv 30 c4Widget).2).count (Event.alertTriggered "w1" none) = 0 := by
  decide

/-- C4 (amended): the alert invocation fires on the transition into
ACTIVE — exactly once for the single HIGH analysis in the scenario — but
the later ACTIVE-to-IDLE decay transition invokes no callback at all: a
flash tick never produces a consumer-facing invocation, and the severity
silently resets to NONE. -/
theorem C4_idle_transition_is_silent :
    (∀ w : WindowPreviewWidget, (stepFlashEv w).2 = []) ∧
      ((processResults analyzeHigh wmW1 [resW1]).2.1).count
          (Event.alertTriggered "w1" (some AlertLevel.high)) = 1 ∧
      c4Widget.alert_level = some AlertLevel.high ∧
      (applyTicksEv 30 c4Widget).1.alert_level = none ∧
      (applyTicksEv 30 c4Widget).2 = [] := by
  refine ⟨?_, by decide, by decide, by decide, by decide⟩
  intro w
  by_cases h : w.flash_timer_active <;> simp [stepFlashEv, flash_tick_ev, h]

/-- C5 counterexample: recording request id `"r1"` when `"r1"` is already
pending for `"w1"` silently overwrites the existing entry with the new
target `"w2"` and emits no log entry — the opposite of the claimed
logged-defect, no-overwrite behaviour. -/
theorem C5_duplicate_record_counterexample :
    record [("r1", "w1")] "r1" "w2" = ([("r1", "w2")], []) ∧
      dictLookup "r1" (record [("r1", "w1")] "r1" "w2").1 = some "w2" := by
  decide

/-- C5 (amended): recording a request id already present in the pending
map silently overwrites the existing entry in place — the new target id
replaces the old one, nothing is logged, and the map's size is
unchanged. -/
theorem C5_duplicate_record_overwrites
    (pending : List (String × String)) (rid wid wid0 : String)
    (h : dictLookup rid pending = some wid0) :
    dictLookup rid (record pending rid wid).1 = some wid ∧
      (record pending rid wid).2 = [] ∧
      (record pending rid wid).1.length = pending.length := by
  exact ⟨dictLookup_dictInsert_self rid wid pending, rfl,
    length_dictInsert_of_lookup rid wid wid0 pending h⟩

/-- C5 witness: overwriting the pending entry for `"r1"`. -/
theorem C5_duplicate_record_overwrites_witness :
    dictLookup "r1" (record [("r1", "w1")] "r1" "w2").1 = some "w2" ∧
      (record [("r1", "w1")] "r1" "w2").1.length = 1 := by
  have h := C5_duplicate_record_overwrites [("r1", "w1")] "r1" "w2" "w1" (by decide)
  exact ⟨h.1, h.2.2⟩

/-- C6: draining a queue holding exactly K results performs exactly K + 1
poll calls — one per drained result and one final call that comes back
empty and ends the loop. -/
theorem C6_drain_poll_count (analyze : String → Frame → Option AlertLevel)
    (wm : WindowManager) (queue : List PollResult) :
    (processResults analyze wm queue).2.2 = queue.length + 1 := by
  induction queue generalizing wm with
  | nil => simp [processResults]
  | cons r rest ih => simp [processResults, ih]

/-- C7: after any `add_window` for an id, the id is registered, and a
second `add_window` for the same id is rejected with a non-exceptional
`none` result and zero mutation — the whole manager state is returned
unchanged, so the registry size and the number of alert-callback
subscriptions for the id stay the same. -/
theorem C7_duplicate_add_rejected (wm : WindowManager) (wid c1 c2 : String) :
    containsKey wid (add_window wm wid c1).1.preview_frames = true ∧
      add_window (add_window wm wid c1).1 wid c2 = ((add_window wm wid c1).1, none) ∧
      (add_window (add_window wm wid c1).1 wid c2).1.preview_frames.length =
        (add_window wm wid c1).1.preview_frames.length ∧
      (add_window (add_window wm wid c1).1 wid c2).1.alert_subscriptions.count wid =
        (add_window wm wid c1).1.alert_subscriptions.count wid := by
  have hmem : containsKey wid (add_window wm wid c1).1.preview_frames = true := by
    by_cases h : containsKey wid wm.preview_frames
    · simp [add_window, h]
    · simp only [Bool.not_eq_true] at h
      simp [add_window, h, containsKey_dictInsert_self]
  have hrej : add_window (add_window wm wid c1).1 wid c2 = ((add_window wm wid c1).1, none) := by
    rw [add_window]
    simp [hmem]
  exact ⟨hmem, hrej, by rw [hrej], by rw [hrej]⟩

/-- Filtering submit calls distributes over list append. -/
theorem submitCallsOf_append (a b : List Event) :
    submitCallsOf (a ++ b) = submitCallsOf a ++ submitCallsOf b := by
  simp [submitCallsOf]

/-- One drain step never performs a capture submission. -/
theorem submitCallsOf_processOne (analyze : String → Frame → Option AlertLevel)
    (wm : WindowManager) (r : PollResult) :
    submitCallsOf (processOne analyze wm r).2 = [] := by
  by_cases h : containsKey r.window_id wm.preview_frames
  · cases hi : r.image with
    | none => simp [processOne, h, hi, submitCallsOf]
    | some img =>
        cases ha : analyze r.window_id img with
        | none => simp [processOne, h, hi, ha, submitCallsOf]
        | some lvl => simp [processOne, h, hi, ha, submitCallsOf]
  · simp only [Bool.not_eq_true] at h
    simp [processOne, h, submitCallsOf]

/-- The drain loop never performs a capture submission. -/
theorem submitCallsOf_processResults (analyze : String → Frame → Option AlertLevel)
    (wm : WindowManager) (queue : List PollResult) :
    submitCallsOf (processResults analyze wm queue).2.1 = [] := by
  induction queue generalizing wm with
  | nil => simp [processResults, submitCallsOf]
  | cons r rest ih =>
      show submitCallsOf ((processOne analyze wm r).2 ++
        (processResults analyze (processOne analyze wm r).1 rest).2.1) = []
      rw [submitCallsOf_append, submitCallsOf_processOne, ih]
      rfl

/-- The submission phase submits once per visible widget, in registry
order, with the widget's zoom factor as scale, and submits nothing for a
hidden widget — regardless of what the backend answers. -/
theorem submitPhase_calls (submitFn : String → ℚ → Option String)
    (frames : List (String × WindowPreviewWidget)) (pending : List (String × String)) :
    submitCallsOf (submitPhase submitFn frames pending).2 =
      (frames.filter fun p => p.2.visible).map
        (fun p => Event.submitCall p.1 p.2.zoom_factor) := by
  induction frames generalizing pending with
  | nil => simp [submitPhase, submitCallsOf]
  | cons p rest ih =>
      obtain ⟨wid, f⟩ := p
      by_cases hv : f.visible
      · cases hs : submitFn wid f.zoom_factor with
        | some rid =>
            simp only [submitPhase, hv, hs, submitCallsOf, List.filter_cons] at ih ⊢
            simp [ih]
        | none =>
            simp only [submitPhase, hv, hs, submitCallsOf, List.filter_cons] at ih ⊢
            simp [ih]
      · simpa [submitPhase, hv, List.filter_cons] using ih pending

/-- C8: a capture-cycle tick submits exactly one capture per widget
currently visible — in registry order, with that widget's scale — and
none for a hidden widget; with `"w1"` visible and `"w2"` hidden, the tick
records exactly the single submission for `"w1"` at its 0.3 scale. -/
theorem C8_submit_visible_only :
    (∀ (submitFn : String → ℚ → Option String)
        (analyze : String → Frame → Option AlertLevel)
        (wm : WindowManager) (queue : List PollResult),
        submitCallsOf (capture_cycle submitFn analyze wm queue).2.1 =
          (wm.preview_frames.filter fun p => p.2.visible).map
            (fun p => Event.submitCall p.1 p.2.zoom_factor)) ∧
      submitCallsOf
          (capture_cycle submitOk analyzeHigh
            { initWM with preview_frames := framesOneVisible } []).2.1 =
        [Event.submitCall "w1" (3 / 10)] := by
  have hmain : ∀ (submitFn : String → ℚ → Option String)
      (analyze : String → Frame → Option AlertLevel)
      (wm : WindowManager) (queue : List PollResult),
      submitCallsOf (capture_cycle submitFn analyze wm queue).2.1 =
        (wm.preview_frames.filter fun p => p.2.visible).map
          (fun p => Event.submitCall p.1 p.2.zoom_factor) := by
    intro submitFn analyze wm queue
    show submitCallsOf ((submitPhase submitFn wm.preview_frames wm.pending_requests).2 ++
      (processResults analyze
        { wm with pending_requests :=
            (submitPhase submitFn wm.preview_frames wm.pending_requests).1 } queue).2.1) = _
    rw [submitCallsOf_append, submitPhase_calls, submitCallsOf_processResults,
      List.append_nil]
  refine ⟨hmain, ?_⟩
  rw [hmain]
  simp [framesOneVisible, initWidget]

/-- C9: whether a drained result's frame is delivered depends only on
whether the window id inside the result tuple is currently registered:
the registry contents and the emitted invocations after one drain step
are identical for any two pending-request maps, and the frame-consumer
invocation for the result happens precisely when the result's window id
is in the registry — in particular a result whose request id was never
recorded is still delivered, and the pending-map pop never changes
delivery. -/
theorem C9_delivery_ignores_pending (analyze : String → Frame → Option AlertLevel)
    (wm : WindowManager) (r : PollResult) (p q : List (String × String)) :
    (processOne analyze { wm with pending_requests := p } r).1.preview_frames =
        (processOne analyze { wm with pending_requests := q } r).1.preview_frames ∧
      (processOne analyze { wm with pending_requests := p } r).2 =
        (processOne analyze { wm with pending_requests := q } r).2 ∧
      ((Event.frameDelivered r.window_id r.image ∈ (processOne analyze wm r).2) ↔
        containsKey r.window_id wm.preview_frames = true) := by
  by_cases h : containsKey r.window_id wm.preview_frames
  · cases hi : r.image with
    | none => simp [processOne, h, hi]
    | some img =>
        cases ha : analyze r.window_id img with
        | none => simp [processOne, h, hi, ha]
        | some lvl => simp [processOne, h, hi, ha]
  · simp only [Bool.not_eq_true] at h
    simp [processOne, h]

/-- C10: the per-target alert callback registered at add time delivers an
alert only while its target id is registered: for an absent id the
callback leaves the manager untouched (the target's `set_alert` is never
reached), and in particular after `remove_window` the removed id is no
longer registered, so an alert arriving for it is silently ignored. -/
theorem C10_removed_target_alert_ignored (wm : WindowManager) (wid : String)
    (lvl : AlertLevel) :
    (containsKey wid wm.preview_frames = false → alert_callback wm wid lvl = wm) ∧
      containsKey wid (remove_window wm wid).preview_frames = false ∧
      alert_callback (remove_window wm wid) wid lvl = remove_window wm wid := by
  have hr := not_containsKey_remove_window wm wid
  exact ⟨fun h => by simp [alert_callback, h], hr, by simp [alert_callback, hr]⟩

/-- C10 witness: an alert for the unregistered id `"w2"` leaves the
manager unchanged, as does an alert for `"w1"` after `"w1"` is removed. -/
theorem C10_removed_target_alert_ignored_witness :
    alert_callback wmW1 "w2" AlertLevel.high = wmW1 ∧
      alert_callback (remove_window wmW1 "w1") "w1" AlertLevel.high =
        remove_window wmW1 "w1" :=
  ⟨(C10_removed_target_alert_ignored wmW1 "w2" AlertLevel.high).1 (by decide),
    (C10_removed_target_alert_ignored wmW1 "w1" AlertLevel.high).2.2⟩
